import Mathlib

/-!
Verification of the contract-expiration analyzer (`app.py`).

The development shallow-embeds the backend functions of the application:
`read_uploaded_file`, `generate_llm_prompt` and `analyze_contracts_with_bedrock`,
together with models of the external library behaviour they rely on
(pandas `to_datetime`/`strftime`, `DataFrame.to_json`, and the standard
library `json.loads`).  Streamlit UI effects (`st.error`, `st.info`, `st.code`)
are modelled as an output list of messages; the Bedrock remote call is
modelled as an `Except`-valued input (the classifier text, or a raised error);
the two `datetime.now()` calls in `generate_llm_prompt` are modelled as two
integer nanosecond timestamps supplied by the environment.
-/

/-- Nanoseconds in one civil day (the resolution of pandas timestamps and a
convenient common resolution for `datetime.now()`). -/
def nsPerDay : Int := 86400000000000

/-- Civil date from a count of days since the Unix epoch 1970-01-01
(the classic era-based civil-calendar algorithm written with floor division).
Returns (year, month, day). -/
def civilFromDays (z0 : Int) : Int × Int × Int :=
  let z := z0 + 719468
  let era := Int.fdiv z 146097
  let doe := z - era * 146097
  let yoe := Int.fdiv (doe - Int.fdiv doe 1460 + Int.fdiv doe 36524 - Int.fdiv doe 146096) 365
  let y := yoe + era * 400
  let doy := doe - (365 * yoe + Int.fdiv yoe 4 - Int.fdiv yoe 100)
  let mp := Int.fdiv (5 * doy + 2) 153
  let d := doy - Int.fdiv (153 * mp + 2) 5 + 1
  let m := if mp < 10 then mp + 3 else mp - 9
  (if m ≤ 2 then y + 1 else y, m, d)

/-- Days since the Unix epoch 1970-01-01 for a civil date (year, month, day). -/
def daysFromCivil (y m d : Int) : Int :=
  let yy := if m ≤ 2 then y - 1 else y
  let era := Int.fdiv yy 400
  let yoe := yy - era * 400
  let mp := if 2 < m then m - 3 else m + 9
  let doy := Int.fdiv (153 * mp + 2) 5 + d - 1
  let doe := yoe * 365 + Int.fdiv yoe 4 - Int.fdiv yoe 100 + doy
  era * 146097 + doe - 719468

/-- Gregorian leap-year test. -/
def isLeapYear (y : Int) : Bool :=
  (y % 4 == 0 && y % 100 != 0) || y % 400 == 0

/-- Number of days in a month of a given year. -/
def daysInMonth (y m : Int) : Int :=
  if m = 2 then (if isLeapYear y then 29 else 28)
  else if m = 4 ∨ m = 6 ∨ m = 9 ∨ m = 11 then 30
  else 31

/-- Left-pad a numeral string with zeros up to width `k`. -/
def padLeft (k : Nat) (s : String) : String :=
  if k ≤ s.length then s else ⟨List.replicate (k - s.length) '0'⟩ ++ s

/-- Render a civil (year, month, day) triple in the `%Y-%m-%d` strftime format. -/
def formatCivil (t : Int × Int × Int) : String :=
  padLeft 4 (toString t.1.toNat) ++ "-" ++ padLeft 2 (toString t.2.1.toNat)
    ++ "-" ++ padLeft 2 (toString t.2.2.toNat)

/-- Whitespace characters removed by the Python str.strip method
(restricted to the ASCII whitespace set). -/
def pyIsSpace (c : Char) : Bool :=
  c = ' ' || c = '\t' || c = '\n' || c = '\r' || c = '\x0b' || c = '\x0c'

/-- Model of the Python str.strip method: drop leading and trailing whitespace. -/
def pyStrip (s : String) : String :=
  ⟨((s.data.dropWhile pyIsSpace).reverse.dropWhile pyIsSpace).reverse⟩

/-- First list starts the second list (model of the Python str.startswith test). -/
def leadsWith : List Char → List Char → Bool
  | [], _ => true
  | _ :: _, [] => false
  | p :: ps, c :: cs => p = c && leadsWith ps cs

/-- Index of the leftmost occurrence of a character (Python str.find; `none`
plays the role of the -1 result). -/
def findIdxOf (ch : Char) : List Char → Option Nat
  | [] => none
  | c :: cs => if c = ch then some 0 else (findIdxOf ch cs).map (· + 1)

/-- Index of the rightmost occurrence of a character (Python str.rfind). -/
def rfindIdxOf (ch : Char) (l : List Char) : Option Nat :=
  (findIdxOf ch l.reverse).map (fun i => l.length - 1 - i)

/-- Fuel-driven worker for `removeAll`: scans left to right and deletes
non-overlapping occurrences of the pattern, exactly like the Python
str.replace method with an empty replacement. -/
def removeAllFuel (pat : List Char) : Nat → List Char → List Char
  | 0, s => s
  | _ + 1, [] => []
  | fuel + 1, c :: rest =>
    if pat ≠ [] && leadsWith pat (c :: rest) then
      removeAllFuel pat fuel ((c :: rest).drop pat.length)
    else
      c :: removeAllFuel pat fuel rest

/-- Delete every occurrence of `pat` (Python `s.replace(pat, "")`). -/
def removeAll (pat : List Char) (s : List Char) : List Char :=
  removeAllFuel pat s.length s

/-- Join strings with a separator (Python str.join). -/
def joinSep (sep : String) : List String → String
  | [] => ""
  | [x] => x
  | x :: xs => x ++ sep ++ joinSep sep xs

/-- JSON values as produced by the Python standard library json.loads
(numbers restricted to integers in this model). -/
inductive Json where
  | null
  | bool (b : Bool)
  | num (n : Int)
  | str (s : String)
  | arr (elems : List Json)
  | obj (fields : List (String × Json))

/-- Whitespace skipped by the JSON grammar. -/
def jsonWs (c : Char) : Bool :=
  c = ' ' || c = '\t' || c = '\n' || c = '\r'

/-- Body of a JSON string up to the closing quote (escape sequences are outside
the modelled subset and are rejected). -/
def pStr : List Char → Except String (List Char × List Char)
  | [] => Except.error "Unterminated string"
  | '"' :: rest => Except.ok ([], rest)
  | '\\' :: _ => Except.error "Unsupported escape"
  | c :: rest => (pStr rest).map (fun p => (c :: p.1, p.2))

/-- Numeric value of a decimal digit list. -/
def natOfDigits (l : List Char) : Nat :=
  l.foldl (fun acc c => acc * 10 + (c.toNat - '0'.toNat)) 0

/-- Leading run of decimal digits (at least one) and the rest of the input. -/
def pDigits (s : List Char) : Option (Nat × List Char) :=
  let ds := s.takeWhile Char.isDigit
  if ds = [] then none else some (natOfDigits ds, s.dropWhile Char.isDigit)

/-- Integer numeral, optionally negated. -/
def pNum (s : List Char) : Except String (Json × List Char) :=
  match s with
  | '-' :: rest =>
    match pDigits rest with
    | none => Except.error "Expecting value"
    | some (n, r) => Except.ok (Json.num (-(n : Int)), r)
  | _ =>
    match pDigits s with
    | none => Except.error "Expecting value"
    | some (n, r) => Except.ok (Json.num (n : Int), r)

mutual

/-- One JSON value and the remaining input, fuel-driven recursive descent. -/
def pVal : Nat → List Char → Except String (Json × List Char)
  | 0, _ => Except.error "Expecting value"
  | fuel + 1, s =>
    match s.dropWhile jsonWs with
    | [] => Except.error "Expecting value"
    | 'n' :: 'u' :: 'l' :: 'l' :: rest => Except.ok (Json.null, rest)
    | 't' :: 'r' :: 'u' :: 'e' :: rest => Except.ok (Json.bool true, rest)
    | 'f' :: 'a' :: 'l' :: 's' :: 'e' :: rest => Except.ok (Json.bool false, rest)
    | '"' :: rest => (pStr rest).map (fun p => (Json.str ⟨p.1⟩, p.2))
    | '[' :: rest =>
      match rest.dropWhile jsonWs with
      | ']' :: rest2 => Except.ok (Json.arr [], rest2)
      | _ => (pElems fuel rest).map (fun p => (Json.arr p.1, p.2))
    | '\x7b' :: rest =>
      match rest.dropWhile jsonWs with
      | '\x7d' :: rest2 => Except.ok (Json.obj [], rest2)
      | _ => (pMembers fuel rest).map (fun p => (Json.obj p.1, p.2))
    | c :: rest =>
      if c = '-' || c.isDigit then pNum (c :: rest) else Except.error "Expecting value"

/-- Comma-separated JSON array elements up to the closing bracket. -/
def pElems : Nat → List Char → Except String (List Json × List Char)
  | 0, _ => Except.error "Expecting value"
  | fuel + 1, s =>
    match pVal fuel s with
    | Except.error e => Except.error e
    | Except.ok (j, rest) =>
      match rest.dropWhile jsonWs with
      | ',' :: rest2 => (pElems fuel rest2).map (fun p => (j :: p.1, p.2))
      | ']' :: rest2 => Except.ok ([j], rest2)
      | _ => Except.error "Expecting delimiter"

/-- Comma-separated JSON object members up to the closing brace. -/
def pMembers : Nat → List Char → Except String (List (String × Json) × List Char)
  | 0, _ => Except.error "Expecting value"
  | fuel + 1, s =>
    match s.dropWhile jsonWs with
    | '"' :: rest =>
      match pStr rest with
      | Except.error e => Except.error e
      | Except.ok (key, rest1) =>
        match rest1.dropWhile jsonWs with
        | ':' :: rest2 =>
          match pVal fuel rest2 with
          | Except.error e => Except.error e
          | Except.ok (j, rest3) =>
            match rest3.dropWhile jsonWs with
            | ',' :: rest4 => (pMembers fuel rest4).map (fun p => ((⟨key⟩, j) :: p.1, p.2))
            | '\x7d' :: rest4 => Except.ok ([(⟨key⟩, j)], rest4)
            | _ => Except.error "Expecting delimiter"
        | _ => Except.error "Expecting colon delimiter"
    | _ => Except.error "Expecting property name"

end

/-- Model of the Python standard library json.loads (external to this
repository): recursive-descent parsing of the JSON grammar restricted to
integer numerals and escape-free strings; an `Except.error` plays the role of
a raised json.JSONDecodeError, with the exception text of the common
first-character failure. -/
def jsonLoads (s : String) : Except String Json :=
  match pVal (s.data.length + 1) s.data with
  | Except.error e => Except.error e
  | Except.ok (j, rest) =>
    if rest.dropWhile jsonWs = [] then Except.ok j else Except.error "Extra data"

/-- User-visible Streamlit messages emitted by the backend functions:
`st.error`, `st.info` and `st.code` calls, in emission order. -/
inductive Msg where
  | error (text : String)
  | info (text : String)
  | code (text : String)
deriving DecidableEq

/-- One cell of the DataFrame produced by pandas read_excel: missing (NaN),
numeric, string, or an already-decoded datetime (a nanosecond timestamp). -/
inductive RawCell where
  | absent
  | num (v : Int)
  | text (s : String)
  | date (ts : Int)
deriving DecidableEq

/-- Column-major pandas DataFrame: a list of (column name, cells) pairs,
all cell lists of equal length. -/
structure PandasDF where
  cols : List (String × List RawCell)
deriving DecidableEq

/-- Column names of the frame, in order (df.columns). -/
def PandasDF.columnNames (df : PandasDF) : List String :=
  df.cols.map Prod.fst

/-- Model of the pandas df.empty test: no columns, or no rows. -/
def PandasDF.isEmptyDF (df : PandasDF) : Bool :=
  df.cols.isEmpty || df.cols.all (fun p => p.2.isEmpty)

/-- COLUMN_MAPPING from app.py line 24: required input headers and their
canonical internal names. -/
def COLUMN_MAPPING : List (String × String) :=
  [("Customer Name", "company"),
   ("Product", "name"),
   ("Warranty Expiry", "expiry_date"),
   ("Maintenance Expiry", "service_expiry_date")]

/-- The required column headers, in mapping order (app.py line 59). -/
def required_cols : List String :=
  COLUMN_MAPPING.map Prod.fst

/-- Required columns absent from the frame, in required order
(app.py line 61); the validation test of line 60 fails exactly when this
list is nonempty. -/
def missingCols (df : PandasDF) : List String :=
  required_cols.filter (fun c => decide (c ∉ df.columnNames))

/-- Model of df.rename(columns=COLUMN_MAPPING): every column name appearing
in the mapping is replaced by its image, others are kept. -/
def renameCols (df : PandasDF) : PandasDF :=
  ⟨df.cols.map (fun p =>
    match COLUMN_MAPPING.find? (fun q => q.1 == p.1) with
    | some q => (q.2, p.2)
    | none => p)⟩

/-- Integer value of a decimal digit character. -/
def digitVal (c : Char) : Int :=
  (c.toNat : Int) - ('0'.toNat : Int)

/-- ISO YYYY-MM-DD parse with calendar validation, producing a nanosecond
timestamp; the modelled fragment of the general pandas date-string parser. -/
def parseISODate (s : String) : Option Int :=
  match s.data with
  | [y1, y2, y3, y4, '-', m1, m2, '-', d1, d2] =>
    if y1.isDigit && y2.isDigit && y3.isDigit && y4.isDigit
        && m1.isDigit && m2.isDigit && d1.isDigit && d2.isDigit then
      let y := 1000 * digitVal y1 + 100 * digitVal y2 + 10 * digitVal y3 + digitVal y4
      let m := 10 * digitVal m1 + digitVal m2
      let d := 10 * digitVal d1 + digitVal d2
      if 1 ≤ m ∧ m ≤ 12 ∧ 1 ≤ d ∧ d ≤ daysInMonth y m then
        some (daysFromCivil y m d * nsPerDay)
      else none
    else none
  | _ => none

/-- Model of pandas to_datetime applied to one cell with errors equal to
coerce (external library behaviour): missing stays missing (NaT); a numeric
cell is taken as a count of nanoseconds since the Unix epoch 1970-01-01, the
pandas default unit, when it fits the int64 timestamp range and coerces to
NaT otherwise; a string cell goes through the general date parser, modelled
here on the ISO YYYY-MM-DD format with calendar validation, out-of-range and
unparseable strings coercing to NaT; a datetime cell passes through. -/
def pdToDatetimeCell : RawCell → Option Int
  | RawCell.absent => none
  | RawCell.num v => if -(2 ^ 63) < v ∧ v < 2 ^ 63 then some v else none
  | RawCell.text s =>
    (parseISODate s).bind (fun ts => if -(2 ^ 63) < ts ∧ ts < 2 ^ 63 then some ts else none)
  | RawCell.date ts => some ts

/-- Model of the strftime format used in app.py line 71: the calendar date of
the timestamp, rendered as YYYY-MM-DD. -/
def strftimeYMD (ts : Int) : String :=
  formatCivil (civilFromDays (Int.fdiv ts nsPerDay))

/-- One cell of the date-column transformation in app.py lines 70-71:
to_datetime with coercion, then strftime; NaT renders as a missing value. -/
def normalizeCellStr (c : RawCell) : Option String :=
  (pdToDatetimeCell c).map strftimeYMD

/-- The normalized cell re-embedded into the frame: a formatted date string,
or the missing marker. -/
def normalizeCellOut (c : RawCell) : RawCell :=
  match normalizeCellStr c with
  | some s => RawCell.text s
  | none => RawCell.absent

/-- The date-column loop of app.py lines 69-71: the two tracked columns are
normalized cell by cell, all other columns are untouched. -/
def applyDateFormatting (df : PandasDF) : PandasDF :=
  ⟨df.cols.map (fun p =>
    if p.1 = "expiry_date" ∨ p.1 = "service_expiry_date" then
      (p.1, p.2.map normalizeCellOut)
    else p)⟩

/-- Embedding of read_uploaded_file (app.py lines 52-77).  The fallible
read_excel decoding step is the `Except`-valued input: a decode failure is the
error case, caught by the except clause of line 75.  The result pairs the
returned value (`none` models the Python None) with the emitted messages.
The line 60 test `not all(col in df.columns for col in required_cols)` holds
exactly when the missing list of line 61 is nonempty. -/
def read_uploaded_file (input : Except String PandasDF) : Option PandasDF × List Msg :=
  match input with
  | Except.error e =>
    (none, [Msg.error ("Error reading or processing the file: " ++ e)])
  | Except.ok df =>
    if missingCols df = [] then
      (some (applyDateFormatting (renameCols df)), [])
    else
      (none,
       [Msg.error ("File validation failed. Missing required columns: **"
          ++ joinSep ", " (missingCols df) ++ "**."),
        Msg.info ("Your Excel file must contain these exact column headers: **"
          ++ joinSep ", " required_cols ++ "**.")])

/-- JSON string escaping for the serializer model (quote, backslash and
newline; the fragment exercised by the frames of this development). -/
def escapeJsonStr (s : String) : String :=
  ⟨s.data.foldr
    (fun c acc =>
      if c = '"' || c = '\\' then '\\' :: c :: acc
      else if c = '\n' then '\\' :: 'n' :: acc
      else c :: acc) []⟩

/-- A JSON string literal. -/
def renderStr (s : String) : String :=
  "\"" ++ escapeJsonStr s ++ "\""

/-- One cell as serialized by pandas to_json: NaN as null, numbers and strings
as themselves, datetimes in the ISO form selected by date_format. -/
def renderCell : RawCell → String
  | RawCell.absent => "null"
  | RawCell.num v => toString v
  | RawCell.text s => renderStr s
  | RawCell.date ts => renderStr (strftimeYMD ts ++ "T00:00:00.000")

/-- Row count of the frame (length of the first column). -/
def rowCount (df : PandasDF) : Nat :=
  match df.cols with
  | [] => 0
  | p :: _ => p.2.length

/-- Record object for row `i` of the frame. -/
def renderRecord (df : PandasDF) (i : Nat) : String :=
  "\x7b"
    ++ joinSep "," (df.cols.map (fun p => renderStr p.1 ++ ":" ++ renderCell (p.2.getD i RawCell.absent)))
    ++ "\x7d"

/-- Model of df.to_json(orient records, date_format iso) from app.py
line 111 (external pandas behaviour): the rows as a JSON array of objects. -/
def dfToJson (df : PandasDF) : String :=
  "[" ++ joinSep "," ((List.range (rowCount df)).map (renderRecord df)) ++ "]"

/-- The markdown-cleanup step of app.py lines 128-136, applied to the raw
classifier text: strip surrounding whitespace; when the stripped text starts
with a fence, slice from the first opening bracket to the last closing
bracket inclusive when both are found, and otherwise delete every occurrence
of the two fence substrings, the json-tagged one first. -/
def cleanupLLMOutput (s : String) : String :=
  let t := pyStrip s
  if leadsWith "```".data t.data then
    match findIdxOf '[' t.data, rfindIdxOf ']' t.data with
    | some i, some j => ⟨(t.data.drop i).take (j + 1 - i)⟩
    | _, _ => ⟨removeAll "```".data (removeAll "```json".data t.data)⟩
  else t

/-- The ResponseParser text-repair algorithm exactly as the specification
words it (the refinement target for the parser claim): strip surrounding
whitespace; if the stripped text begins with a fence marker, take the
substring from the first opening bracket to the last closing bracket
inclusive when both exist; otherwise remove all occurrences of the two fence
substrings; the parse of the result is then attempted. -/
def specResponseClean (s : String) : String :=
  let t := pyStrip s
  if leadsWith "```".data t.data then
    match findIdxOf '[' t.data, rfindIdxOf ']' t.data with
    | some i, some j => ⟨(t.data.drop i).take (j + 1 - i)⟩
    | _, _ => ⟨removeAll "```".data (removeAll "```json".data t.data)⟩
  else t

/-- ALERT_DAYS_THRESHOLD from app.py line 20. -/
def ALERT_DAYS_THRESHOLD : Nat := 90

/-- The strftime of a nanosecond timestamp in the %Y-%m-%d format
(datetime.now().strftime of app.py lines 83-84). -/
def dateStr (ts : Int) : String :=
  formatCivil (civilFromDays (Int.fdiv ts nsPerDay))

/-- The system prompt f-string of app.py lines 86-101, with its two date
interpolations as arguments and the threshold constant interpolated. -/
def system_prompt_text (today alert_end : String) : String :=
  "\n    You are an expert Contract Analyst. Your task is to analyze the provided list of contracts in JSON format.\n"
    ++ "    The primary date for analysis is \x27expiry_date\x27 (Warranty Expiry).\n"
    ++ "    \n"
    ++ "    Identify all contracts where the **\x27expiry_date\x27** is between today ("
    ++ today ++ ") and " ++ alert_end ++ " (within " ++ toString ALERT_DAYS_THRESHOLD ++ " days).\n"
    ++ "\n"
    ++ "    For each expiring contract found based on the \x27expiry_date\x27, extract and return the exact \x27name\x27, \x27company\x27, \x27expiry_date\x27, and the **\x27service_expiry_date\x27**. \n"
    ++ "    \n"
    ++ "    Your final output MUST be a clean JSON array of objects, with NO surrounding text, explanation, or markdown formatting (e.g., no ```json).\n"
    ++ "    The required JSON schema is:\n"
    ++ "    [\n"
    ++ "        \x7b\"name\": \"...\", \"company\": \"...\", \"expiry_date\": \"YYYY-MM-DD\", \"service_expiry_date\": \"YYYY-MM-DD\"\x7d,\n"
    ++ "        ...\n"
    ++ "    ]\n"
    ++ "    If no contracts are expiring in the window, return an empty array: [].\n"
    ++ "    "

/-- Embedding of generate_llm_prompt (app.py lines 80-103).  The function
reads the wall clock twice, once on line 83 for the window start and once on
line 84 for the window end; the two readings are the inputs `n1` and `n2`
(nanosecond timestamps).  timedelta(days equal to the threshold) adds exactly
that many whole days to the second reading. -/
def generate_llm_prompt (n1 n2 : Int) (contract_data_json : String) : String × String :=
  let today := dateStr n1
  let alert_end_date := dateStr (n2 + (ALERT_DAYS_THRESHOLD : Int) * nsPerDay)
  (system_prompt_text today alert_end_date,
   "Analyze the following contract data (JSON):\n\n" ++ contract_data_json)

/-- Embedding of analyze_contracts_with_bedrock (app.py lines 106-143).
Inputs: `parse` is the json.loads function (instantiable with `jsonLoads`);
`n1`, `n2` the two clock readings inside generate_llm_prompt; `df` the input
frame; `call` the Bedrock converse call outcome, the classifier text or a
raised error.  Output: the returned Python value (the parsed JSON, or the
empty list), the emitted Streamlit messages, and the (system, user) request
actually sent, `none` when the empty-frame guard of line 108 returns before
any prompt is built or any call is made.  On the error path the except clause
of line 140 reports the error and shows the current value of the
llm_output_text variable, which at that point holds the line 114 placeholder
for a raised call, and the cleaned (stripped and bracket-sliced or
fence-stripped) text for a parse failure, since line 129 overwrites the
variable before json.loads runs. -/
def analyze_contracts_with_bedrock (parse : String → Except String Json)
    (n1 n2 : Int) (df : PandasDF) (call : Except String String) :
    Json × List Msg × Option (String × String) :=
  if df.isEmptyDF then (Json.arr [], [], none)
  else
    let contract_data_json := dfToJson df
    let prompts := generate_llm_prompt n1 n2 contract_data_json
    match call with
    | Except.error e =>
      (Json.arr [],
       [Msg.error ("LLM Processing Error: Could not get or parse response from Bedrock. Details: " ++ e),
        Msg.code ("LLM Raw Output (Debug):\n"
          ++ "ERROR: Bedrock call failed before output could be received.")],
       some prompts)
    | Except.ok t =>
      let llm_output_text := cleanupLLMOutput t
      match parse llm_output_text with
      | Except.ok j => (j, [], some prompts)
      | Except.error e =>
        (Json.arr [],
         [Msg.error ("LLM Processing Error: Could not get or parse response from Bedrock. Details: " ++ e),
          Msg.code ("LLM Raw Output (Debug):\n" ++ llm_output_text)],
         some prompts)

/-- A small nonempty frame with the four canonical columns, used for concrete
evaluations below. -/
def sampleDF : PandasDF :=
  ⟨[("company", [RawCell.text "Acme"]),
    ("name", [RawCell.text "Router"]),
    ("expiry_date", [RawCell.text "1970-02-01"]),
    ("service_expiry_date", [RawCell.absent])]⟩

/-- A frame with the four canonical columns and zero rows. -/
def emptyDF : PandasDF :=
  ⟨[("company", []), ("name", []), ("expiry_date", []), ("service_expiry_date", [])]⟩

/-- A frame whose headers lack exactly the Maintenance Expiry column. -/
def missingColDF : PandasDF :=
  ⟨[("Customer Name", [RawCell.text "Acme"]),
    ("Product", [RawCell.text "Router"]),
    ("Warranty Expiry", [RawCell.text "2026-01-01"])]⟩

/-- A validated frame with one parseable and one garbage date cell. -/
def fullDF : PandasDF :=
  ⟨[("Customer Name", [RawCell.text "Acme"]),
    ("Product", [RawCell.text "Router"]),
    ("Warranty Expiry", [RawCell.text "2026-03-01"]),
    ("Maintenance Expiry", [RawCell.text "garbage"])]⟩

/-- Adding a whole number of days to a timestamp shifts its civil day by
exactly that number. -/
theorem fdiv_add_mul_nsPerDay (t k : Int) :
    Int.fdiv (t + k * nsPerDay) nsPerDay = Int.fdiv t nsPerDay + k := by
  rw [Int.fdiv_eq_ediv _ (by decide : (0 : Int) ≤ nsPerDay),
    Int.fdiv_eq_ediv _ (by decide : (0 : Int) ≤ nsPerDay),
    Int.add_mul_ediv_right _ _ (by decide : nsPerDay ≠ (0 : Int))]

/-- A sub-day nanosecond remainder does not change the civil day. -/
theorem fdiv_mul_add_small (v k : Int) (h0 : 0 ≤ k) (h1 : k < nsPerDay) :
    Int.fdiv (v * nsPerDay + k) nsPerDay = v := by
  rw [Int.add_comm, fdiv_add_mul_nsPerDay,
    Int.fdiv_eq_ediv _ (by decide : (0 : Int) ≤ nsPerDay),
    Int.ediv_eq_zero_of_lt h0 h1, Int.zero_add]

/-- C9: every failure while reading or processing the uploaded file is caught
at the loader boundary: the loader returns None together with a single
user-visible error message naming the cause, and no error value escapes the
function (its result type carries no error case). -/
theorem read_failure_caught (e : String) :
    read_uploaded_file (Except.error e) =
      (none, [Msg.error ("Error reading or processing the file: " ++ e)]) := rfl

/-- C2: the response cleanup applied to every raw classifier text follows
exactly the algorithm worded by the specification (strip, fence test,
first-to-last bracket slice when both brackets exist, otherwise deletion of
the two fence substrings), as witnessed by pointwise equality with the
spec-worded definition; the concrete conjuncts exercise the three branches. -/
theorem response_cleanup_follows_spec :
    (∀ s : String, cleanupLLMOutput s = specResponseClean s) ∧
    cleanupLLMOutput "```json\n[1, -2]\n```" = "[1, -2]" ∧
    cleanupLLMOutput "```json\nno data\n```" = "\nno data\n" ∧
    cleanupLLMOutput "  [1, -2]  " = "[1, -2]" :=
  ⟨fun _ => rfl, by decide, by decide, by decide⟩

/-- C10: an empty input frame makes the analysis return the empty list at
once: no message is emitted and no request is ever formed, so neither the
prompt builder nor the remote classifier runs (the result is the same for
every possible call outcome). -/
theorem analyze_empty_frame (parse : String → Except String Json)
    (n1 n2 : Int) (df : PandasDF) (call : Except String String)
    (h : df.isEmptyDF = true) :
    analyze_contracts_with_bedrock parse n1 n2 df call = (Json.arr [], [], none) := by
  simp [analyze_contracts_with_bedrock, h]

/-- Witness for the empty-frame claim at a concrete zero-row frame, with a
call outcome that would raise if it were ever used. -/
theorem analyze_empty_frame_witness :
    emptyDF.isEmptyDF = true ∧
    analyze_contracts_with_bedrock jsonLoads 0 0 emptyDF (Except.error "boom")
      = (Json.arr [], [], none) :=
  ⟨by decide, analyze_empty_frame jsonLoads 0 0 emptyDF (Except.error "boom") (by decide)⟩

/-- C1: whenever at least one of the four required headers is absent, the
loader fails validation: it returns None together with exactly one error
message listing precisely the missing names and one info message listing the
full required set, and produces no renamed or date-parsed frame.  The second
conjunct checks the reported list is exactly the set of required names not
present in the upload. -/
theorem upload_missing_columns_rejected (df : PandasDF) (h : missingCols df ≠ []) :
    read_uploaded_file (Except.ok df) =
      (none,
       [Msg.error ("File validation failed. Missing required columns: **"
          ++ joinSep ", " (missingCols df) ++ "**."),
        Msg.info ("Your Excel file must contain these exact column headers: **"
          ++ joinSep ", " required_cols ++ "**.")]) ∧
    (∀ c, c ∈ missingCols df ↔ c ∈ required_cols ∧ c ∉ df.columnNames) := by
  constructor
  · simp only [read_uploaded_file, if_neg h]
  · intro c
    simp [missingCols, List.mem_filter]

/-- Witness for the missing-column claim: the frame missing only Maintenance
Expiry is rejected with that exact column named. -/
theorem upload_missing_columns_witness :
    missingCols missingColDF ≠ [] ∧
    missingCols missingColDF = ["Maintenance Expiry"] ∧
    read_uploaded_file (Except.ok missingColDF) =
      (none,
       [Msg.error ("File validation failed. Missing required columns: **"
          ++ joinSep ", " (missingCols missingColDF) ++ "**."),
        Msg.info ("Your Excel file must contain these exact column headers: **"
          ++ joinSep ", " required_cols ++ "**.")]) :=
  ⟨by decide, by decide, (upload_missing_columns_rejected missingColDF (by decide)).1⟩

/-- C8: date normalization of the tracked columns is total and per-cell:
the normalized column has one entry per input cell, entry `i` depends only on
input cell `i`, every cell becomes either a canonical YYYY-MM-DD rendering or
the missing marker (never an error), and on a validated frame the loader
returns the renamed frame with exactly this per-cell transformation applied
and no error message. -/
theorem date_normalization_total_per_cell :
    (∀ cells : List RawCell, (cells.map normalizeCellOut).length = cells.length) ∧
    (∀ cells : List RawCell, ∀ i : Nat,
        (cells.map normalizeCellOut).getD i RawCell.absent
          = normalizeCellOut (cells.getD i RawCell.absent)) ∧
    (∀ c : RawCell, normalizeCellOut c = RawCell.absent ∨
        ∃ t, normalizeCellOut c = RawCell.text (formatCivil t)) ∧
    (∀ df : PandasDF, missingCols df = [] →
        read_uploaded_file (Except.ok df)
          = (some (applyDateFormatting (renameCols df)), [])) := by
  refine ⟨?_, ?_, ?_, ?_⟩
  · intro cells
    simp
  · intro cells i
    induction cells generalizing i with
    | nil => cases i <;> rfl
    | cons c cs ih =>
      cases i with
      | zero => rfl
      | succ n => simpa using ih n
  · intro c
    cases h : pdToDatetimeCell c with
    | none =>
      left
      simp [normalizeCellOut, normalizeCellStr, h]
    | some ts =>
      right
      exact ⟨civilFromDays (Int.fdiv ts nsPerDay),
        by simp [normalizeCellOut, normalizeCellStr, h, strftimeYMD]⟩
  · intro df h
    simp [read_uploaded_file, h]

/-- Witness for the normalization claim on a concrete validated frame; the
final conjuncts evaluate the mixed column: the garbage cell coerces to the
missing marker while its neighbour still parses. -/
theorem date_normalization_witness :
    missingCols fullDF = [] ∧
    read_uploaded_file (Except.ok fullDF)
      = (some (applyDateFormatting (renameCols fullDF)), []) ∧
    normalizeCellOut (RawCell.text "garbage") = RawCell.absent ∧
    normalizeCellOut (RawCell.text "2026-03-01") = RawCell.text "2026-03-01" :=
  ⟨by decide, date_normalization_total_per_cell.2.2.2 fullDF (by decide),
    by decide, by decide⟩

/-- C3: on a parse failure the analysis does report a processing error,
return the empty list and swallow raised call errors, but the diagnostic text
it surfaces is NOT the raw pre-strip classifier text: line 129 of app.py
overwrites the llm_output_text variable, so the except clause shows the
cleaned text (here the stripped form of a padded input, which differs from
the text as received); on a raised call it shows the line 114 placeholder. -/
theorem parse_failure_surfaces_cleaned_text :
    analyze_contracts_with_bedrock jsonLoads 0 0 sampleDF (Except.ok "  sorry, no data  ") =
      (Json.arr [],
       [Msg.error "LLM Processing Error: Could not get or parse response from Bedrock. Details: Expecting value",
        Msg.code "LLM Raw Output (Debug):\nsorry, no data"],
       some (generate_llm_prompt 0 0 (dfToJson sampleDF))) ∧
    cleanupLLMOutput "  sorry, no data  " = "sorry, no data" ∧
    ("sorry, no data" : String) ≠ "  sorry, no data  " ∧
    (∀ e : String,
      analyze_contracts_with_bedrock jsonLoads 0 0 sampleDF (Except.error e) =
        (Json.arr [],
         [Msg.error ("LLM Processing Error: Could not get or parse response from Bedrock. Details: " ++ e),
          Msg.code "LLM Raw Output (Debug):\nERROR: Bedrock call failed before output could be received."],
         some (generate_llm_prompt 0 0 (dfToJson sampleDF)))) :=
  ⟨rfl, by decide, by decide, fun _ => rfl⟩

/-- C4 counterexample: classifier text that parses as a JSON object is
returned as-is by the analysis with no message, instead of being replaced by
an empty result list, refuting the claimed non-array guard. -/
theorem nonarray_json_returned_counterexample :
    (analyze_contracts_with_bedrock jsonLoads 0 0 sampleDF (Except.ok "\x7b\x7d")).1
      = Json.obj [] ∧
    (analyze_contracts_with_bedrock jsonLoads 0 0 sampleDF (Except.ok "\x7b\x7d")).2.1
      = [] ∧
    Json.obj [] ≠ Json.arr [] :=
  ⟨rfl, rfl, fun h => Json.noConfusion h⟩

/-- C4 amended: the analysis performs no array check at all: whatever value
the cleaned classifier text parses to, array or not, is returned unchanged to
the caller with no message; the empty list arises only on parse or call
failure. -/
theorem analyze_returns_parsed_value (parse : String → Except String Json)
    (n1 n2 : Int) (df : PandasDF) (t : String) (j : Json)
    (hne : df.isEmptyDF = false) (hp : parse (cleanupLLMOutput t) = Except.ok j) :
    analyze_contracts_with_bedrock parse n1 n2 df (Except.ok t) =
      (j, [], some (generate_llm_prompt n1 n2 (dfToJson df))) := by
  simp [analyze_contracts_with_bedrock, hne, hp]

/-- Witness for the no-array-check theorem at the object-valued text. -/
theorem analyze_returns_parsed_value_witness :
    sampleDF.isEmptyDF = false ∧
    jsonLoads (cleanupLLMOutput "\x7b\x7d") = Except.ok (Json.obj []) ∧
    analyze_contracts_with_bedrock jsonLoads 0 0 sampleDF (Except.ok "\x7b\x7d") =
      (Json.obj [], [], some (generate_llm_prompt 0 0 (dfToJson sampleDF))) :=
  ⟨by decide, rfl,
    analyze_returns_parsed_value jsonLoads 0 0 sampleDF "\x7b\x7d" (Json.obj [])
      (by decide) rfl⟩

/-- C5 counterexample: numeric cells 2 and 0 both normalize to 1970-01-01,
because pandas to_datetime reads a bare number as nanoseconds since the Unix
epoch, not as a spreadsheet serial day count; the claimed results 1900-01-01
and 1899-12-30 are therefore wrong on this code. -/
theorem numeric_serial_counterexample :
    normalizeCellStr (RawCell.num 2) = some "1970-01-01" ∧
    normalizeCellStr (RawCell.num 0) = some "1970-01-01" ∧
    ("1970-01-01" : String) ≠ "1900-01-01" ∧
    ("1970-01-01" : String) ≠ "1899-12-30" :=
  ⟨by decide, by decide, by decide, by decide⟩

/-- C5 amended: a numeric cell within the int64 timestamp range is taken as a
count of nanoseconds since the Unix epoch 1970-01-01; the normalized date is
the epoch plus the floor of the value divided by the nanoseconds in one day,
so any sub-day remainder is discarded and all small serials (0, 2, ...) land
on 1970-01-01. -/
theorem numeric_cells_use_unix_epoch_ns (v k : Int) (h0 : 0 ≤ k) (h1 : k < nsPerDay)
    (hr : -(2 ^ 63) < v * nsPerDay + k ∧ v * nsPerDay + k < 2 ^ 63) :
    normalizeCellStr (RawCell.num (v * nsPerDay + k))
      = some (formatCivil (civilFromDays v)) := by
  simp only [normalizeCellStr, pdToDatetimeCell, if_pos hr]
  simp [strftimeYMD, fdiv_mul_add_small v k h0 h1]

/-- Witness for the nanosecond-epoch theorem at the serial value 2. -/
theorem numeric_cells_use_unix_epoch_ns_witness :
    (0 : Int) ≤ 2 ∧ (2 : Int) < nsPerDay ∧
    (-(2 ^ 63) < (0 : Int) * nsPerDay + 2 ∧ (0 : Int) * nsPerDay + 2 < 2 ^ 63) ∧
    normalizeCellStr (RawCell.num ((0 : Int) * nsPerDay + 2))
      = some (formatCivil (civilFromDays 0)) :=
  ⟨by decide, by decide, ⟨by decide, by decide⟩,
    numeric_cells_use_unix_epoch_ns 0 2 (by decide) (by decide) ⟨by decide, by decide⟩⟩

/-- C6 counterexample: the prompt builder reads the clock twice, so with the
first reading in the last nanosecond of a day and the second in the first
nanosecond of the next day the emitted end date (1970-04-02) is one day past
the window start plus the 90-day threshold (1970-04-01), refuting the claim
that the end date always equals the start date plus the threshold. -/
theorem prompt_window_counterexample :
    (86399999999999 : Int) ≤ 86400000000000 ∧
    generate_llm_prompt 86399999999999 86400000000000 "[]" =
      (system_prompt_text "1970-01-01" "1970-04-02",
       "Analyze the following contract data (JSON):\n\n[]") ∧
    dateStr (86399999999999 + (ALERT_DAYS_THRESHOLD : Int) * nsPerDay) = "1970-04-01" ∧
    ("1970-04-02" : String) ≠ "1970-04-01" :=
  ⟨by decide, rfl, by decide, by decide⟩

/-- C6 amended: now is read twice, once for the window start and once for the
end; whenever both readings fall on the same calendar day (every run that
does not straddle midnight) the prompt window ends exactly the threshold
number of days after its start. -/
theorem prompt_window_same_day (n1 n2 : Int) (data : String)
    (h : Int.fdiv n1 nsPerDay = Int.fdiv n2 nsPerDay) :
    generate_llm_prompt n1 n2 data =
      (system_prompt_text (formatCivil (civilFromDays (Int.fdiv n1 nsPerDay)))
         (formatCivil (civilFromDays (Int.fdiv n1 nsPerDay + (ALERT_DAYS_THRESHOLD : Int)))),
       "Analyze the following contract data (JSON):\n\n" ++ data) := by
  unfold generate_llm_prompt dateStr
  rw [fdiv_add_mul_nsPerDay, ← h]

/-- Witness for the same-day window theorem at the epoch instant. -/
theorem prompt_window_same_day_witness :
    Int.fdiv 0 nsPerDay = Int.fdiv 0 nsPerDay ∧
    generate_llm_prompt 0 0 "[]" =
      (system_prompt_text (formatCivil (civilFromDays (Int.fdiv 0 nsPerDay)))
         (formatCivil (civilFromDays (Int.fdiv 0 nsPerDay + (ALERT_DAYS_THRESHOLD : Int)))),
       "Analyze the following contract data (JSON):\n\n[]") :=
  ⟨rfl, prompt_window_same_day 0 0 "[]" rfl⟩

/-- C7: for every nonempty row batch the analysis sends exactly two text
blocks: the fixed instruction template (which carries the window start, the
window end equal to the start plus the threshold when both clock readings
share a day, the four-field output schema and the empty-array fallback), and
a user message consisting of the fixed prefix followed by the frame
serialized as a JSON records array; the threshold is the constant 90, not a
request parameter. -/
theorem prompt_request_structure (parse : String → Except String Json)
    (n1 n2 : Int) (df : PandasDF) (call : Except String String)
    (hday : Int.fdiv n1 nsPerDay = Int.fdiv n2 nsPerDay)
    (hne : df.isEmptyDF = false) :
    (analyze_contracts_with_bedrock parse n1 n2 df call).2.2 =
      some (system_prompt_text (dateStr n1)
              (formatCivil (civilFromDays (Int.fdiv n1 nsPerDay + (ALERT_DAYS_THRESHOLD : Int)))),
            "Analyze the following contract data (JSON):\n\n" ++ dfToJson df) ∧
    ALERT_DAYS_THRESHOLD = 90 := by
  constructor
  · have hend : formatCivil (civilFromDays
          (Int.fdiv (n2 + (ALERT_DAYS_THRESHOLD : Int) * nsPerDay) nsPerDay))
        = formatCivil (civilFromDays (Int.fdiv n1 nsPerDay + (ALERT_DAYS_THRESHOLD : Int))) := by
      rw [fdiv_add_mul_nsPerDay, ← hday]
    cases call with
    | error e =>
      simp [analyze_contracts_with_bedrock, hne, generate_llm_prompt, dateStr, hend]
    | ok t =>
      cases hp : parse (cleanupLLMOutput t) with
      | ok j =>
        simp [analyze_contracts_with_bedrock, hne, generate_llm_prompt, dateStr, hend, hp]
      | error e =>
        simp [analyze_contracts_with_bedrock, hne, generate_llm_prompt, dateStr, hend, hp]
  · rfl

/-- Witness for the request-structure theorem at the epoch instant on the
sample frame, with a raised call. -/
theorem prompt_request_structure_witness :
    Int.fdiv 0 nsPerDay = Int.fdiv 0 nsPerDay ∧
    sampleDF.isEmptyDF = false ∧
    (analyze_contracts_with_bedrock jsonLoads 0 0 sampleDF (Except.error "x")).2.2 =
      some (system_prompt_text (dateStr 0)
              (formatCivil (civilFromDays (Int.fdiv 0 nsPerDay + (ALERT_DAYS_THRESHOLD : Int)))),
            "Analyze the following contract data (JSON):\n\n" ++ dfToJson sampleDF) :=
  ⟨rfl, by decide,
    (prompt_request_structure jsonLoads 0 0 sampleDF (Except.error "x") rfl (by decide)).1⟩
